import Mathlib

/-!
Shallow embedding of `src/1/corobus.c`: a bounded, handle-addressed message
channel bus for cooperatively scheduled coroutines.

Modelling conventions:
* A `struct data_vector` is modelled by the `List` of its live values
  (`data[0 .. size-1]`); the geometric `capacity` bookkeeping only manages raw
  storage and never changes the value sequence, so it is elided.
* A `struct wakeup_queue` is the `List` of task ids of the parked coroutines,
  head first.  `wakeup_queue_wakeup_first` only marks the head task runnable
  (it does not unlink it), so it returns the woken ids and leaves the queue
  unchanged; `wakeup_queue_suspend_this` appends the caller at the tail and,
  when the suspension returns, unlinks the caller's entry (a second unlink
  after `coro_bus_channel_close` already unlinked it is a no-op, as
  `rlist_del` reinitialises the entry).
* Pointer identity of a `struct coro_bus_channel *` is modelled by a `Nat`
  id that the bus hands out freshly at every `coro_bus_channel_open`.
* `bus->channels == NULL` holds exactly when `bus->channel_count == 0`
  (the array pointer is first set by a successful growth and is never reset),
  so both tests are modelled by `channels.isEmpty`; `bus == NULL` is modelled
  only where a claim needs it, via an `Option` wrapper.
* Each operation of the C API either returns or suspends.  A blocking
  operation is split at its suspension points: `*_attempt` runs from entry to
  the first return or suspension; `*_resume` runs from the point where
  `wakeup_queue_suspend_this` returns to the next return or suspension.  A
  full execution of a blocking call is an `attempt` followed by zero or more
  `resume` steps (with arbitrary interference by other tasks in between), so
  every value the call can return is a `ret` outcome of one of these two
  functions.
* `size_t` subtraction is modelled with an explicit wraparound at `2 ^ 64`
  (`usub64`); it only occurs in `coro_bus_send_v` / `coro_bus_try_send_v`,
  where the C assigns the `size_t` difference to a 32-bit
  `unsigned space`, so the model further truncates it modulo `2 ^ 32`
  (`u32`): at a capacity of `2 ^ 32` the C computes `space == 0` on an
  empty channel.
* An array read `bus->channels[channel]` performed without the bounds check
  (`coro_bus_recv` and `coro_bus_try_recv` omit it) is undefined behaviour in
  the C when the index is out of range; the model makes this an explicit
  `ub` outcome.
-/

namespace Corobus

/-- A message: a C `unsigned` (32-bit) value.  The code never does arithmetic
on messages, so no wraparound arises. -/
abbrev Val := Nat

/-- Identity of a coroutine (`struct coro *`), for wait-queue membership. -/
abbrev TaskId := Nat

/-- Modelled from the spec: the enum `coro_bus_error_code` is declared in
`corobus.h`, which is not among the sources; the spec lists the kinds
`None`, `NoChannel`, `WouldBlock`, `Allocation`. -/
inductive Err where
  | none
  | noChannel
  | wouldBlock
  | allocation
deriving DecidableEq, Repr

/-- Which wait queue of a channel a task is parked in. -/
inductive Side where
  | send
  | recv
deriving DecidableEq, Repr

/-- `struct coro_bus_channel`.  `id` models the pointer identity of the
`malloc`ed channel object (used by the `bus->channels[channel] != chan`
rechecks after wakeup). -/
structure Chan where
  id : Nat
  size_limit : Nat
  data : List Val
  send_queue : List TaskId
  recv_queue : List TaskId
deriving DecidableEq, Repr

/-- `struct coro_bus`.  `channel_count` is `channels.length`; `nextId` is the
supply of fresh pointer identities. -/
structure CoroBus where
  channels : List (Option Chan)
  nextId : Nat
deriving DecidableEq, Repr

/-- `2 ^ 64` wraparound subtraction of `size_t` values (both below `2 ^ 64`). -/
def usub64 (a b : Nat) : Nat := (2 ^ 64 + a - b) % 2 ^ 64

/-- Truncation of a `size_t` value to a C `unsigned` (32-bit) value, as in
the assignment `unsigned space = chan->size_limit - chan->data.size;`. -/
def u32 (n : Nat) : Nat := n % 2 ^ 32

/-- `data_vector_append_many`: append `d` at the tail. -/
def data_vector_append_many (vec : List Val) (d : List Val) : List Val := vec ++ d

/-- `data_vector_append`: append a single message. -/
def data_vector_append (vec : List Val) (v : Val) : List Val :=
  data_vector_append_many vec [v]

/-- `data_vector_pop_first_many`: pop `count` messages from the head
(the caller must ensure `count ≤ vec.length`, the C `assert`). -/
def data_vector_pop_first_many (vec : List Val) (count : Nat) : List Val × List Val :=
  (vec.take count, vec.drop count)

/-- `data_vector_pop_first`: pop one message from the head (head defaults to
`0` only when the C assert would already have fired). -/
def data_vector_pop_first (vec : List Val) : Val × List Val :=
  ((vec.headD 0), vec.drop 1)

/-- `wakeup_queue_wakeup_first`: mark the head task runnable (if any) without
unlinking it; returns the list of tasks woken by this call. -/
def wakeup_queue_wakeup_first (q : List TaskId) : List TaskId := q.head?.toList

/-- The channel slot read `bus->channels[channel]` for an `int` index:
`none` means the index is out of the array's bounds. -/
def chanAt (bus : CoroBus) (channel : Int) : Option (Option Chan) :=
  if channel < 0 then none else bus.channels.get? channel.toNat

/-- Replace slot `i` of the bus. -/
def setChanAt (bus : CoroBus) (i : Nat) (c : Option Chan) : CoroBus :=
  { bus with channels := bus.channels.set i c }

/-- The handle-validity test
`bus->channels == NULL || channel < 0 || channel >= bus->channel_count ||
 bus->channels[channel] == NULL` shared by the operations that check bounds. -/
def invalidHandle (bus : CoroBus) (channel : Int) : Bool :=
  bus.channels.isEmpty || decide (channel < 0) ||
    decide ((bus.channels.length : Int) ≤ channel) ||
    (chanAt bus channel).join.isNone

/-- State accompanying an operation outcome: the bus, the global errno, and
the tasks marked runnable by the call, in wake order. -/
structure St where
  bus : CoroBus
  errno : Err
  woken : List TaskId
deriving DecidableEq, Repr

/-- Outcome of running one step of an operation (entry-to-return/suspension,
or resumption-to-return/suspension).

* `ret r out s`: the C function returns `r`; `out` are the values stored
  through the caller's out-pointer (empty for sends).
* `park slot chanId side s`: the task suspends in
  `wakeup_queue_suspend_this` on the given queue of the channel object
  `chanId` sitting in `slot`; `s.bus` already contains the task at that
  queue's tail.
* `parkMany slots s`: `coro_bus_broadcast` suspends on the send queue of
  each listed full channel during one scan pass.
* `yielded s`: `coro_bus_broadcast` reached its `coro_yield()` call.
* `ub`: the C performs an out-of-bounds array read (undefined behaviour). -/
inductive Outcome where
  | ret (r : Int) (out : List Val) (s : St)
  | park (slot : Nat) (chanId : Nat) (side : Side) (s : St)
  | parkMany (slots : List Nat) (s : St)
  | yielded (s : St)
  | ub
deriving DecidableEq, Repr

/-- Does the outcome suspend the calling task? -/
def Outcome.isSuspend : Outcome → Bool
  | .park _ _ _ _ => true
  | .parkMany _ _ => true
  | .yielded _ => true
  | _ => false

/-- The bus in which the step left the system (none for undefined behaviour). -/
def Outcome.busOf : Outcome → Option CoroBus
  | .ret _ _ s => some s.bus
  | .park _ _ _ s => some s.bus
  | .parkMany _ s => some s.bus
  | .yielded s => some s.bus
  | .ub => Option.none

/-- `rlist_del_entry(&entry, base)` run by a resuming task: unlink itself from
the queue it parked in, if the slot still holds a channel (after a close the
entry is already unlinked and the second unlink is a no-op). -/
def removeWaiter (bus : CoroBus) (slot : Nat) (side : Side) (self : TaskId) : CoroBus :=
  match bus.channels.get? slot with
  | some (some chan) =>
    let chan' := match side with
      | .send => { chan with send_queue := chan.send_queue.erase self }
      | .recv => { chan with recv_queue := chan.recv_queue.erase self }
    setChanAt bus slot (some chan')
  | _ => bus

/-- `coro_bus_channel_open`.  `mallocOk` / `growOk` tell whether the
`malloc` of the channel and the `realloc` of the slot array succeed; the C
returns `-1` without touching errno when the `malloc` fails, and sets
`CORO_BUS_ERR_NO_CHANNEL` when the `realloc` fails. -/
def coro_bus_channel_open (bus : CoroBus) (errno : Err) (size_limit : Nat)
    (mallocOk growOk : Bool) : Int × CoroBus × Err :=
  if !mallocOk then (-1, bus, errno)
  else
    let chan : Chan :=
      { id := bus.nextId, size_limit := size_limit,
        data := [], send_queue := [], recv_queue := [] }
    let bus0 : CoroBus := { bus with nextId := bus.nextId + 1 }
    match bus.channels.findIdx? Option.isNone with
    | some i => (Int.ofNat i, setChanAt bus0 i (some chan), errno)
    | Option.none =>
      if growOk then
        (Int.ofNat bus.channels.length,
         { bus0 with channels := bus0.channels ++ [some chan] }, errno)
      else
        (-1, bus, Err.noChannel)

/-- `coro_bus_channel_close` on a non-NULL bus: on an invalid handle it
returns silently; otherwise it unlinks and wakes every waiter of the recv
queue then of the send queue (setting `CORO_BUS_ERR_NO_CHANNEL` once per
waiter, hence iff there was at least one), frees the channel and empties the
slot.  Returns (bus, errno, tasks woken in order). -/
def coro_bus_channel_close (bus : CoroBus) (errno : Err) (channel : Int) :
    CoroBus × Err × List TaskId :=
  if invalidHandle bus channel then (bus, errno, [])
  else
    match chanAt bus channel with
    | some (some chan) =>
      let woken := chan.recv_queue ++ chan.send_queue
      (setChanAt bus channel.toNat Option.none,
       if woken.isEmpty then errno else Err.noChannel,
       woken)
    | _ => (bus, errno, [])

/-- `coro_bus_channel_close` including the `bus == NULL` guard. -/
def coro_bus_channel_close_c (obus : Option CoroBus) (errno : Err) (channel : Int) :
    Option CoroBus × Err × List TaskId :=
  match obus with
  | Option.none => (Option.none, errno, [])
  | some bus =>
    let r := coro_bus_channel_close bus errno channel
    (some r.1, r.2.1, r.2.2)

/-- `coro_bus_send`, from entry to the first return or suspension.  The loop
body: full handle validation, then append-and-wake if there is room, else
park on the send queue. -/
def coro_bus_send_attempt (self : TaskId) (bus : CoroBus) (errno : Err)
    (channel : Int) (data : Val) : Outcome :=
  if invalidHandle bus channel then .ret (-1) [] ⟨bus, Err.noChannel, []⟩
  else
    match chanAt bus channel with
    | some (some chan) =>
      if chan.data.length < chan.size_limit then
        let chan' := { chan with data := data_vector_append chan.data data }
        .ret 0 []
          ⟨setChanAt bus channel.toNat (some chan'), errno,
           wakeup_queue_wakeup_first chan'.recv_queue ++
             wakeup_queue_wakeup_first chan'.send_queue⟩
      else
        .park channel.toNat chan.id .send
          ⟨setChanAt bus channel.toNat
             (some { chan with send_queue := chan.send_queue ++ [self] }),
           errno, []⟩
    | _ => .ub

/-- `coro_bus_send`, from the return of `wakeup_queue_suspend_this`: unlink
the waiter entry, fail with `NoChannel` if the slot no longer holds the same
channel object, else run the loop body again. -/
def coro_bus_send_resume (self : TaskId) (bus : CoroBus) (errno : Err)
    (channel : Int) (chanId : Nat) (data : Val) : Outcome :=
  let bus1 := removeWaiter bus channel.toNat .send self
  match chanAt bus1 channel with
  | some (some chan) =>
    if chan.id = chanId then coro_bus_send_attempt self bus1 errno channel data
    else .ret (-1) [] ⟨bus1, Err.noChannel, []⟩
  | _ => .ret (-1) [] ⟨bus1, Err.noChannel, []⟩

/-- `coro_bus_try_send`: validate, fail `WouldBlock` when full, else append
and wake the first waiting receiver only. -/
def coro_bus_try_send (bus : CoroBus) (errno : Err) (channel : Int)
    (data : Val) : Outcome :=
  if invalidHandle bus channel then .ret (-1) [] ⟨bus, Err.noChannel, []⟩
  else
    match chanAt bus channel with
    | some (some chan) =>
      if chan.size_limit ≤ chan.data.length then
        .ret (-1) [] ⟨bus, Err.wouldBlock, []⟩
      else
        let chan' := { chan with data := data_vector_append chan.data data }
        .ret 0 []
          ⟨setChanAt bus channel.toNat (some chan'), errno,
           wakeup_queue_wakeup_first chan'.recv_queue⟩
    | _ => .ub

/-- `coro_bus_recv`, from entry to the first return or suspension.  Its guard
is `bus == NULL || bus->channels == NULL || bus->channel_count == 0 ||
!bus->channels[channel]` — it does NOT check `channel` against the array
bounds, so an out-of-range handle on a non-empty bus reads out of bounds. -/
def coro_bus_recv_attempt (self : TaskId) (bus : CoroBus) (errno : Err)
    (channel : Int) : Outcome :=
  if bus.channels.isEmpty then .ret (-1) [] ⟨bus, Err.noChannel, []⟩
  else
    match chanAt bus channel with
    | Option.none => .ub
    | some Option.none => .ret (-1) [] ⟨bus, Err.noChannel, []⟩
    | some (some chan) =>
      if chan.data.length = 0 then
        .park channel.toNat chan.id .recv
          ⟨setChanAt bus channel.toNat
             (some { chan with recv_queue := chan.recv_queue ++ [self] }),
           errno, []⟩
      else
        let p := data_vector_pop_first chan.data
        .ret 0 [p.1]
          ⟨setChanAt bus channel.toNat (some { chan with data := p.2 }), errno,
           wakeup_queue_wakeup_first chan.send_queue⟩

/-- `coro_bus_recv`, from the return of `wakeup_queue_suspend_this`: unlink,
fail with `NoChannel` on channel-identity mismatch, else re-evaluate the
`while` condition (the loop does not rerun the entry guard). -/
def coro_bus_recv_resume (self : TaskId) (bus : CoroBus) (errno : Err)
    (channel : Int) (chanId : Nat) : Outcome :=
  let bus1 := removeWaiter bus channel.toNat .recv self
  match chanAt bus1 channel with
  | some (some chan) =>
    if chan.id = chanId then
      if chan.data.length = 0 then
        .park channel.toNat chan.id .recv
          ⟨setChanAt bus1 channel.toNat
             (some { chan with recv_queue := chan.recv_queue ++ [self] }),
           errno, []⟩
      else
        let p := data_vector_pop_first chan.data
        .ret 0 [p.1]
          ⟨setChanAt bus1 channel.toNat (some { chan with data := p.2 }), errno,
           wakeup_queue_wakeup_first chan.send_queue⟩
    else .ret (-1) [] ⟨bus1, Err.noChannel, []⟩
  | _ => .ret (-1) [] ⟨bus1, Err.noChannel, []⟩

/-- `coro_bus_try_recv`: same unchecked-bounds guard as `coro_bus_recv`;
empty queue fails `WouldBlock`, else pop the head and wake a sender. -/
def coro_bus_try_recv (bus : CoroBus) (errno : Err) (channel : Int) : Outcome :=
  if bus.channels.isEmpty then .ret (-1) [] ⟨bus, Err.noChannel, []⟩
  else
    match chanAt bus channel with
    | Option.none => .ub
    | some Option.none => .ret (-1) [] ⟨bus, Err.noChannel, []⟩
    | some (some chan) =>
      if chan.data.length = 0 then
        .ret (-1) [] ⟨bus, Err.wouldBlock, []⟩
      else
        let p := data_vector_pop_first chan.data
        .ret 0 [p.1]
          ⟨setChanAt bus channel.toNat (some { chan with data := p.2 }), errno,
           wakeup_queue_wakeup_first chan.send_queue⟩

/-- The "not ready" test of `coro_bus_broadcast` for one channel: full AND no
receiver is parked (`chan->data.size >= chan->size_limit &&
rlist_empty(&chan->recv_queue.coros)`). -/
def broadcastNotReady (chan : Chan) : Bool :=
  decide (chan.size_limit ≤ chan.data.length) && chan.recv_queue.isEmpty

/-- `coro_bus_broadcast`, one pass of the `while (true)` scan (from the loop
top to the next return, `coro_yield`, or the suspensions on the full
channels' send queues).  A channel that is full but has a parked receiver
counts as ready and receives the message anyway. -/
def coro_bus_broadcast_attempt (self : TaskId) (bus : CoroBus) (errno : Err)
    (data : Val) : Outcome :=
  if bus.channels.isEmpty then .ret (-1) [] ⟨bus, Err.noChannel, []⟩
  else if bus.channels.all Option.isNone then .ret (-1) [] ⟨bus, Err.noChannel, []⟩
  else if bus.channels.all (fun s => match s with
      | Option.none => true
      | some chan => !broadcastNotReady chan) then
    .ret 0 []
      ⟨{ bus with channels := bus.channels.map (fun s => match s with
           | Option.none => Option.none
           | some chan => some { chan with data := data_vector_append chan.data data }) },
       errno,
       (bus.channels.map (fun s => match s with
          | Option.none => []
          | some chan => wakeup_queue_wakeup_first chan.recv_queue)).flatten⟩
  else
    let parks := (bus.channels.enum.filterMap (fun p => match p.2 with
      | some chan => if broadcastNotReady chan then some p.1 else Option.none
      | Option.none => Option.none))
    if parks.isEmpty then .yielded ⟨bus, errno, []⟩
    else
      .parkMany parks
        ⟨{ bus with channels := bus.channels.map (fun s => match s with
             | Option.none => Option.none
             | some chan =>
               if broadcastNotReady chan then
                 some { chan with send_queue := chan.send_queue ++ [self] }
               else some chan) },
         errno, []⟩

/-- `coro_bus_try_broadcast`: the `while (true)` exits on every path of its
first iteration; all-or-nothing single pass, with no parked-receiver
exemption in its fullness test. -/
def coro_bus_try_broadcast (bus : CoroBus) (errno : Err) (data : Val) : Outcome :=
  if bus.channels.isEmpty then .ret (-1) [] ⟨bus, Err.noChannel, []⟩
  else if bus.channels.all Option.isNone then .ret (-1) [] ⟨bus, Err.noChannel, []⟩
  else if bus.channels.any (fun s => match s with
      | Option.none => false
      | some chan => decide (chan.size_limit ≤ chan.data.length)) then
    .ret (-1) [] ⟨bus, Err.wouldBlock, []⟩
  else
    .ret 0 []
      ⟨{ bus with channels := bus.channels.map (fun s => match s with
           | Option.none => Option.none
           | some chan => some { chan with data := data_vector_append chan.data data }) },
       errno,
       (bus.channels.map (fun s => match s with
          | Option.none => []
          | some chan => wakeup_queue_wakeup_first chan.recv_queue)).flatten⟩

/-- The body of `coro_bus_send_v`'s `for (;;)` loop once the slot is known to
hold the channel `chan` (`sent` is `0` at every iteration that does not
return, since any iteration with room returns immediately):
`space = size_limit - size` computed as `size_t` and truncated into the
32-bit `unsigned space`; park when `space == 0`; else append
`min(count, space)` values, waking the first receiver after each append and
the first sender once at the end, and return the count. -/
def coro_bus_send_v_pass (self : TaskId) (bus : CoroBus) (errno : Err)
    (channel : Int) (data : List Val) : Outcome :=
  match chanAt bus channel with
  | some (some chan) =>
    let space := u32 (usub64 chan.size_limit chan.data.length)
    if space = 0 then
      .park channel.toNat chan.id .send
        ⟨setChanAt bus channel.toNat
           (some { chan with send_queue := chan.send_queue ++ [self] }),
         errno, []⟩
    else
      let to_send := min data.length space
      let chan' := { chan with data := chan.data ++ data.take to_send }
      .ret (Int.ofNat to_send) []
        ⟨setChanAt bus channel.toNat (some chan'), errno,
         (List.replicate to_send (wakeup_queue_wakeup_first chan.recv_queue)).flatten ++
           wakeup_queue_wakeup_first chan.send_queue⟩
  | _ => .ub

/-- `coro_bus_send_v`, from entry to the first return or suspension: full
handle validation, then the loop body. -/
def coro_bus_send_v_attempt (self : TaskId) (bus : CoroBus) (errno : Err)
    (channel : Int) (data : List Val) : Outcome :=
  if invalidHandle bus channel then .ret (-1) [] ⟨bus, Err.noChannel, []⟩
  else coro_bus_send_v_pass self bus errno channel data

/-- `coro_bus_send_v`, from the return of `wakeup_queue_suspend_this`:
unlink, fail `NoChannel` if the slot no longer holds the same channel
object, else rerun the loop body. -/
def coro_bus_send_v_resume (self : TaskId) (bus : CoroBus) (errno : Err)
    (channel : Int) (chanId : Nat) (data : List Val) : Outcome :=
  let bus1 := removeWaiter bus channel.toNat .send self
  match chanAt bus1 channel with
  | some (some chan) =>
    if chan.id = chanId then coro_bus_send_v_pass self bus1 errno channel data
    else .ret (-1) [] ⟨bus1, Err.noChannel, []⟩
  | _ => .ret (-1) [] ⟨bus1, Err.noChannel, []⟩

/-- `coro_bus_try_send_v`: validate; compute the `size_t` difference
`size_limit - size` truncated into the 32-bit `unsigned space`;
`space == 0` fails `WouldBlock`; else transfer `min(count, space)` values
(waking the first receiver per value and the first sender once) and return
the count. -/
def coro_bus_try_send_v (bus : CoroBus) (errno : Err) (channel : Int)
    (data : List Val) : Outcome :=
  if invalidHandle bus channel then .ret (-1) [] ⟨bus, Err.noChannel, []⟩
  else
    match chanAt bus channel with
    | some (some chan) =>
      let space := u32 (usub64 chan.size_limit chan.data.length)
      if space = 0 then .ret (-1) [] ⟨bus, Err.wouldBlock, []⟩
      else
        let to_send := min data.length space
        let chan' := { chan with data := chan.data ++ data.take to_send }
        .ret (Int.ofNat to_send) []
          ⟨setChanAt bus channel.toNat (some chan'), errno,
           (List.replicate to_send (wakeup_queue_wakeup_first chan.recv_queue)).flatten ++
             wakeup_queue_wakeup_first chan.send_queue⟩
    | _ => .ub

/-- `coro_bus_try_recv_v`: validate; empty queue fails `WouldBlock`; else
pop `min(capacity, size)` values from the head and wake the first sender. -/
def coro_bus_try_recv_v (bus : CoroBus) (errno : Err) (channel : Int)
    (capacity : Nat) : Outcome :=
  if invalidHandle bus channel then .ret (-1) [] ⟨bus, Err.noChannel, []⟩
  else
    match chanAt bus channel with
    | some (some chan) =>
      if chan.data.length = 0 then .ret (-1) [] ⟨bus, Err.wouldBlock, []⟩
      else
        let recv_count := min capacity chan.data.length
        .ret (Int.ofNat recv_count) (chan.data.take recv_count)
          ⟨setChanAt bus channel.toNat
             (some { chan with data := chan.data.drop recv_count }), errno,
           wakeup_queue_wakeup_first chan.send_queue⟩
    | _ => .ub

/-- The body of `coro_bus_recv_v`'s `while` loop (shared by the first
iteration and the post-suspension iterations): run `coro_bus_try_recv_v`; on
`WouldBlock`, set errno to `None` and park on the recv queue; on another
failure return it; on success, additionally wake the first parked receiver
when messages remain, then return the count. -/
def coro_bus_recv_v_loop (self : TaskId) (bus : CoroBus) (errno : Err)
    (channel : Int) (capacity : Nat) : Outcome :=
  match coro_bus_try_recv_v bus errno channel capacity with
  | .ret r out s =>
    if r < 0 then
      if s.errno = Err.wouldBlock then
        match chanAt s.bus channel with
        | some (some chan) =>
          .park channel.toNat chan.id .recv
            ⟨setChanAt s.bus channel.toNat
               (some { chan with recv_queue := chan.recv_queue ++ [self] }),
             Err.none, []⟩
        | _ => .ub
      else .ret r out s
    else
      match chanAt s.bus channel with
      | some (some chan) =>
        if 0 < chan.data.length then
          .ret r out ⟨s.bus, s.errno, s.woken ++ wakeup_queue_wakeup_first chan.recv_queue⟩
        else .ret r out s
      | _ => .ub
  | o => o

/-- `coro_bus_recv_v`, from entry to the first return or suspension: full
handle validation, then the loop body. -/
def coro_bus_recv_v_attempt (self : TaskId) (bus : CoroBus) (errno : Err)
    (channel : Int) (capacity : Nat) : Outcome :=
  if invalidHandle bus channel then .ret (-1) [] ⟨bus, Err.noChannel, []⟩
  else coro_bus_recv_v_loop self bus errno channel capacity

/-- `coro_bus_recv_v`, from the return of `wakeup_queue_suspend_this`:
unlink, then rerun the loop body (whose `coro_bus_try_recv_v` call redoes
the full validation, so a closed channel surfaces as `NoChannel`). -/
def coro_bus_recv_v_resume (self : TaskId) (bus : CoroBus) (errno : Err)
    (channel : Int) (capacity : Nat) : Outcome :=
  coro_bus_recv_v_loop self (removeWaiter bus channel.toNat .recv self)
    errno channel capacity

/-- The spec's capacity invariant: every live channel's pending count is at
most its capacity. -/
def capacityInvariant (bus : CoroBus) : Bool :=
  bus.channels.all fun s => match s with
    | Option.none => true
    | some ch => decide (ch.data.length ≤ ch.size_limit)

/-- The bound `coro_bus_broadcast` actually guarantees: at most one message
over capacity, and within capacity on every channel with no parked
receiver. -/
def broadcastCapSlack (bus : CoroBus) : Bool :=
  bus.channels.all fun s => match s with
    | Option.none => true
    | some ch => decide (ch.data.length ≤ ch.size_limit + 1) &&
        (!ch.recv_queue.isEmpty || decide (ch.data.length ≤ ch.size_limit))

/-- Machine-representability of the C state: every capacity is a `size_t`
value (below `2 ^ 64`); needed where the model's wrapped `size_t`
subtraction occurs. -/
def sizesMachine (bus : CoroBus) : Bool :=
  bus.channels.all fun s => match s with
    | Option.none => true
    | some ch => decide (ch.size_limit < 2 ^ 64)

/-- Iterate `coro_bus_send`, requiring every call to return `0` without ever
suspending; yields the final bus and errno. -/
def sendAll (self : TaskId) (channel : Int) :
    CoroBus → Err → List Val → Option (CoroBus × Err)
  | bus, errno, [] => some (bus, errno)
  | bus, errno, v :: vs =>
    match coro_bus_send_attempt self bus errno channel v with
    | .ret r _ s => if r = 0 then sendAll self channel s.bus s.errno vs else Option.none
    | _ => Option.none

/-- Iterate `coro_bus_recv` `n` times, requiring every call to return `0`
without ever suspending; yields the received values in order. -/
def recvAll (self : TaskId) (channel : Int) :
    CoroBus → Err → Nat → Option (List Val × CoroBus × Err)
  | bus, errno, 0 => some ([], bus, errno)
  | bus, errno, n + 1 =>
    match coro_bus_recv_attempt self bus errno channel with
    | .ret r out s =>
      if r = 0 then (recvAll self channel s.bus s.errno n).map (fun p => (out ++ p.1, p.2))
      else Option.none
    | _ => Option.none

/-- Send the values of `vs` one by one, then receive `vs.length` values. -/
def roundTrip (self : TaskId) (channel : Int) (bus : CoroBus) (errno : Err)
    (vs : List Val) : Option (List Val) :=
  match sendAll self channel bus errno vs with
  | some (bus1, e1) => (recvAll self channel bus1 e1 vs.length).map (·.1)
  | Option.none => Option.none

/-- A capacity-1 channel that is full while a receiver (task 3) is parked on
it: the state `coro_bus_broadcast` appends to anyway. -/
def busFullWithReceiver : CoroBus := ⟨[some ⟨0, 1, [7], [], [3]⟩], 1⟩

/-- The bus after `coro_bus_broadcast` appended `42` to that full channel. -/
def busOverCap : CoroBus := ⟨[some ⟨0, 1, [7, 42], [], [3]⟩], 1⟩

/-- An idle channel of capacity 3 (the `try_send_many` / `send_many`
scenario of the spec). -/
def busEmptyCap3 : CoroBus := ⟨[some ⟨0, 3, [], [], []⟩], 1⟩

/-- The bus after one `coro_bus_send_v` pass moved `[1, 2, 3]` into it. -/
def busCap3After : CoroBus := ⟨[some ⟨0, 3, [1, 2, 3], [], []⟩], 1⟩

/-- A bus with a single idle channel in slot 0 (`channel_count == 1`), for
the out-of-range-handle evaluations. -/
def busOneChan : CoroBus := ⟨[some ⟨0, 2, [], [], []⟩], 1⟩

/-- A full capacity-1 channel with senders 4, 5 and receiver 6 parked on it. -/
def busParked : CoroBus := ⟨[some ⟨0, 1, [7], [4, 5], [6]⟩], 1⟩

/-- A bus whose slot array has no free slot. -/
def busNoFree : CoroBus := ⟨[some ⟨0, 1, [], [], []⟩], 1⟩

/-- Channels `A(capacity 2, used 0)` and `B(capacity 1, used 1)`: the
`try_broadcast` scenario of the spec. -/
def busAB : CoroBus := ⟨[some ⟨0, 2, [], [], []⟩, some ⟨1, 1, [9], [], []⟩], 2⟩

/-- An idle channel whose capacity `2 ^ 32` does not fit the 32-bit
`unsigned space`: the truncation makes `space == 0` despite the room. -/
def chanHuge : Chan := ⟨0, 2 ^ 32, [], [], []⟩

/-- A bus holding `chanHuge` in slot 0. -/
def busHuge : CoroBus := ⟨[some chanHuge], 1⟩

/-! ## Helper lemmas -/

theorem all_set_of_all {α} {p : α → Bool} {l : List α} {x : α}
    (h : l.all p = true) (hx : p x = true) (i : Nat) : (l.set i x).all p = true := by
  rw [List.all_eq_true] at h ⊢
  intro a ha
  rcases List.mem_or_eq_of_mem_set ha with h' | rfl
  · exact h a h'
  · exact hx

theorem lt_length_of_get? {α} {l : List α} {n : Nat} {a : α}
    (h : l.get? n = some a) : n < l.length := by
  rw [List.get?_eq_getElem?] at h
  exact (List.getElem?_eq_some.mp h).1

theorem get?_set_self {α} {l : List α} {n : Nat} (a : α) (h : n < l.length) :
    (l.set n a).get? n = some a := by
  simp [List.get?_eq_getElem?, List.getElem?_set_self, h]

theorem usub64_of_le {a b : Nat} (hba : b ≤ a) (ha : a < 2 ^ 64) :
    usub64 a b = a - b := by
  unfold usub64
  have h1 : 2 ^ 64 + a - b = 2 ^ 64 + (a - b) := by omega
  rw [h1, Nat.add_mod_left, Nat.mod_eq_of_lt (by omega)]

theorem ofNat_ne_neg_one (n : Nat) : Int.ofNat n ≠ -1 := by
  intro hc
  have h0 : 0 ≤ Int.ofNat n := Int.ofNat_nonneg _
  rw [hc] at h0
  norm_num at h0

theorem chanAt_nonneg {bus : CoroBus} {channel : Int} {s : Option Chan}
    (hch : chanAt bus channel = some s) : ¬ channel < 0 := by
  intro hc
  unfold chanAt at hch
  simp [hc] at hch

theorem chanAt_get? {bus : CoroBus} {channel : Int} {s : Option Chan}
    (hch : chanAt bus channel = some s) :
    bus.channels.get? channel.toNat = some s := by
  have h0 := chanAt_nonneg hch
  unfold chanAt at hch
  simpa [h0] using hch

theorem invalidHandle_false {bus : CoroBus} {channel : Int} {ch : Chan}
    (hch : chanAt bus channel = some (some ch)) :
    invalidHandle bus channel = false := by
  have h0 := chanAt_nonneg hch
  have hget := chanAt_get? hch
  have hlt := lt_length_of_get? hget
  have h1 : bus.channels.isEmpty = false := by
    cases h : bus.channels with
    | nil => rw [h] at hlt; simp at hlt
    | cons a l => rfl
  have h2 : ¬ ((bus.channels.length : Int) ≤ channel) := by
    intro hle
    have h3 : (channel.toNat : Int) = channel := Int.toNat_of_nonneg (by omega)
    omega
  unfold invalidHandle
  simp [h1, h0, h2, hch]

/-! ## Claim C10 -/

/-- Claim C10: `coro_bus_channel_close` called with an invalid handle (NULL
bus, negative index, index past the slot array, or an empty slot) returns
without modifying any bus state, without waking anyone and without touching
the last-error state. -/
theorem c10_close_invalid_noop (obus : Option CoroBus) (errno : Err) (channel : Int)
    (h : ∀ bus, obus = some bus → invalidHandle bus channel = true) :
    coro_bus_channel_close_c obus errno channel = (obus, errno, []) := by
  cases obus with
  | none => rfl
  | some bus =>
    have hb := h bus rfl
    unfold coro_bus_channel_close_c coro_bus_channel_close
    simp [hb]

/-- Witness for C10 at the NULL bus and at an out-of-range handle of a
one-channel bus. -/
theorem c10_close_invalid_noop_witness :
    coro_bus_channel_close_c Option.none Err.none 0 = (Option.none, Err.none, []) ∧
    coro_bus_channel_close_c (some busOneChan) Err.none 5 =
      (some busOneChan, Err.none, []) :=
  ⟨c10_close_invalid_noop Option.none Err.none 0 (by intro bus hb; cases hb),
   c10_close_invalid_noop (some busOneChan) Err.none 5
     (by intro bus hb; cases hb; decide)⟩

/-! ## Claim C5 -/

/-- Claim C5 (code bug): on a bus with `channel_count == 1`, handle `5` names
no slot, yet `coro_bus_recv` and `coro_bus_try_recv` skip the range check
every sibling operation performs and read `bus->channels[5]` out of bounds
(undefined behaviour) instead of failing with `NoChannel`; `coro_bus_try_send`
at the very same input correctly fails with `NoChannel` and leaves the bus
unchanged. -/
theorem c5_recv_oob_is_ub :
    coro_bus_recv_attempt 0 busOneChan Err.none 5 = Outcome.ub ∧
    coro_bus_try_recv busOneChan Err.none 5 = Outcome.ub ∧
    coro_bus_try_send busOneChan Err.none 5 9 =
      Outcome.ret (-1) [] ⟨busOneChan, Err.noChannel, []⟩ :=
  ⟨rfl, rfl, rfl⟩

/-! ## Claim C6 -/

/-- Counterexample for C6: on a bus with no free slot and a failing slot
array growth, `coro_bus_channel_open` fails, but it sets `NoChannel`, not
the allocation-class error the claim requires. -/
theorem c6_counterexample :
    coro_bus_channel_open busNoFree Err.none 4 true false =
      (-1, busNoFree, Err.noChannel) ∧
    Err.noChannel ≠ Err.allocation :=
  ⟨rfl, by decide⟩

/-- Claim C6 (amended): `open_channel` reuses the first free slot if one
exists, otherwise grows the slot array by one and returns the new slot index
as the handle; when growing the slot array fails it fails with the
`NoChannel` error (not an allocation-class error). -/
theorem c6_open_first_free_or_grow (bus : CoroBus) (errno : Err) (size_limit : Nat) :
    (∀ i, bus.channels.findIdx? Option.isNone = some i →
      coro_bus_channel_open bus errno size_limit true true =
        (Int.ofNat i,
         setChanAt { bus with nextId := bus.nextId + 1 } i
           (some ⟨bus.nextId, size_limit, [], [], []⟩), errno)) ∧
    (bus.channels.findIdx? Option.isNone = Option.none →
      coro_bus_channel_open bus errno size_limit true true =
        (Int.ofNat bus.channels.length,
         ⟨bus.channels ++ [some ⟨bus.nextId, size_limit, [], [], []⟩],
          bus.nextId + 1⟩, errno)) ∧
    (bus.channels.findIdx? Option.isNone = Option.none →
      coro_bus_channel_open bus errno size_limit true false =
        (-1, bus, Err.noChannel)) := by
  refine ⟨?_, ?_, ?_⟩
  · intro i hi
    unfold coro_bus_channel_open
    simp [hi]
  · intro hn
    unfold coro_bus_channel_open
    simp [hn]
  · intro hn
    unfold coro_bus_channel_open
    simp [hn]

/-- Witness for C6 at a two-slot bus whose first slot is free, and at a bus
with no free slot. -/
theorem c6_open_first_free_or_grow_witness :
    coro_bus_channel_open ⟨[Option.none, some ⟨0, 1, [], [], []⟩], 1⟩ Err.none 4 true true =
      (Int.ofNat 0,
       setChanAt { channels := [Option.none, some ⟨0, 1, [], [], []⟩], nextId := 2 } 0
         (some ⟨1, 4, [], [], []⟩), Err.none) ∧
    coro_bus_channel_open busNoFree Err.none 4 true false = (-1, busNoFree, Err.noChannel) :=
  ⟨(c6_open_first_free_or_grow ⟨[Option.none, some ⟨0, 1, [], [], []⟩], 1⟩ Err.none 4).1 0 rfl,
   (c6_open_first_free_or_grow busNoFree Err.none 4).2.2 rfl⟩

/-! ## Claim C8 -/

/-- Counterexample for C8: a single `coro_bus_send_v` call with 5 values on
an idle capacity-3 channel returns (rather than suspending to transfer
more) having transferred only `[1, 2, 3]`, and its return value is `3`, not
`5`. -/
theorem c8_counterexample :
    coro_bus_send_v_attempt 0 busEmptyCap3 Err.none 0 [1, 2, 3, 4, 5] =
      Outcome.ret 3 [] ⟨busCap3After, Err.none, []⟩ ∧
    (3 : Int) ≠ 5 :=
  ⟨rfl, by decide⟩

/-- Claim C8 (amended): a single call to the blocking `send_many` on an idle
channel (capacity ≤ count, and below `2 ^ 32` as any capacity at most the
32-bit `unsigned` count is) transfers only what fits in one pass: it
returns `capacity` having enqueued exactly the first `capacity` values, and
does not suspend to transfer the rest. -/
theorem c8_send_v_one_pass (self : TaskId) (bus : CoroBus) (errno : Err)
    (channel : Int) (ch : Chan) (vs : List Val)
    (hch : chanAt bus channel = some (some ch))
    (hdata : ch.data = [])
    (hpos : 0 < ch.size_limit) (hlim : ch.size_limit < 2 ^ 32)
    (hcnt : ch.size_limit ≤ vs.length) :
    coro_bus_send_v_attempt self bus errno channel vs =
      Outcome.ret (Int.ofNat ch.size_limit) []
        ⟨setChanAt bus channel.toNat
           (some { ch with data := vs.take ch.size_limit }), errno,
         (List.replicate ch.size_limit (wakeup_queue_wakeup_first ch.recv_queue)).flatten ++
           wakeup_queue_wakeup_first ch.send_queue⟩ := by
  have hinv := invalidHandle_false hch
  unfold coro_bus_send_v_attempt coro_bus_send_v_pass
  rw [hinv]
  simp only [Bool.false_eq_true, if_false, hch]
  have hs : u32 (usub64 ch.size_limit ch.data.length) = ch.size_limit := by
    rw [hdata]
    have h1 : usub64 ch.size_limit (List.length ([] : List Val)) = ch.size_limit := by
      simpa using usub64_of_le (Nat.zero_le _) (by omega)
    rw [h1]
    simp only [u32]
    exact Nat.mod_eq_of_lt hlim
  rw [hs]
  have hne : ¬ (ch.size_limit = 0) := by omega
  rw [if_neg hne]
  have hmin : min vs.length ch.size_limit = ch.size_limit := by omega
  simp [hmin, hdata]

/-- Witness for C8's amended theorem at the concrete 5-into-3 scenario. -/
theorem c8_send_v_one_pass_witness :
    coro_bus_send_v_attempt 0 busEmptyCap3 Err.none 0 [1, 2, 3, 4, 5] =
      Outcome.ret (Int.ofNat 3) []
        ⟨setChanAt busEmptyCap3 0 (some ⟨0, 3, [1, 2, 3], [], []⟩), Err.none, []⟩ := by
  have h := c8_send_v_one_pass 0 busEmptyCap3 Err.none 0 ⟨0, 3, [], [], []⟩
    [1, 2, 3, 4, 5] rfl rfl (by decide) (by decide) (by decide)
  simpa using h

/-! ## Claim C3 -/

theorem try_send_wb_frame {bus : CoroBus} {errno : Err} {channel : Int} {v : Val}
    {r : Int} {out : List Val} {s : St}
    (h : coro_bus_try_send bus errno channel v = .ret r out s)
    (hr : r = -1) (he : s.errno = Err.wouldBlock) : s.bus = bus := by
  unfold coro_bus_try_send at h
  split at h
  · cases h; rfl
  · split at h
    · split at h
      · cases h; rfl
      · cases h; exact absurd hr (by decide)
    · cases h

theorem try_recv_wb_frame {bus : CoroBus} {errno : Err} {channel : Int}
    {r : Int} {out : List Val} {s : St}
    (h : coro_bus_try_recv bus errno channel = .ret r out s)
    (hr : r = -1) (he : s.errno = Err.wouldBlock) : s.bus = bus := by
  unfold coro_bus_try_recv at h
  split at h
  · cases h; rfl
  · split at h
    · cases h
    · cases h; rfl
    · split at h
      · cases h; rfl
      · cases h; exact absurd hr (by decide)

theorem try_broadcast_wb_frame {bus : CoroBus} {errno : Err} {v : Val}
    {r : Int} {out : List Val} {s : St}
    (h : coro_bus_try_broadcast bus errno v = .ret r out s)
    (hr : r = -1) (he : s.errno = Err.wouldBlock) : s.bus = bus := by
  unfold coro_bus_try_broadcast at h
  split at h
  · cases h; rfl
  · split at h
    · cases h; rfl
    · split at h
      · cases h; rfl
      · cases h; exact absurd hr (by decide)

theorem try_send_v_wb_frame {bus : CoroBus} {errno : Err} {channel : Int}
    {vs : List Val} {r : Int} {out : List Val} {s : St}
    (h : coro_bus_try_send_v bus errno channel vs = .ret r out s)
    (hr : r = -1) (he : s.errno = Err.wouldBlock) : s.bus = bus := by
  unfold coro_bus_try_send_v at h
  split at h
  · cases h; rfl
  · split at h
    · dsimp only at h
      split at h
      · cases h; rfl
      · cases h
        exact absurd hr (ofNat_ne_neg_one _)
    · cases h

theorem try_recv_v_wb_frame {bus : CoroBus} {errno : Err} {channel : Int}
    {capacity : Nat} {r : Int} {out : List Val} {s : St}
    (h : coro_bus_try_recv_v bus errno channel capacity = .ret r out s)
    (hr : r = -1) (he : s.errno = Err.wouldBlock) : s.bus = bus := by
  unfold coro_bus_try_recv_v at h
  split at h
  · cases h; rfl
  · split at h
    · split at h
      · cases h; rfl
      · cases h
        exact absurd hr (ofNat_ne_neg_one _)
    · cases h

/-- Claim C3: whenever a non-blocking operation (`try_send`, `try_recv`,
`try_broadcast`, `try_send_many`, `try_recv_many`) fails with `WouldBlock`,
the bus — in particular every channel's message queue — is exactly as it was
before the call; `try_broadcast` in particular modifies zero channels. -/
theorem c3_wouldblock_no_mutation :
    (∀ bus errno channel v r out s,
      coro_bus_try_send bus errno channel v = .ret r out s →
      r = -1 → s.errno = Err.wouldBlock → s.bus = bus) ∧
    (∀ bus errno channel r out s,
      coro_bus_try_recv bus errno channel = .ret r out s →
      r = -1 → s.errno = Err.wouldBlock → s.bus = bus) ∧
    (∀ bus errno v r out s,
      coro_bus_try_broadcast bus errno v = .ret r out s →
      r = -1 → s.errno = Err.wouldBlock → s.bus = bus) ∧
    (∀ bus errno channel vs r out s,
      coro_bus_try_send_v bus errno channel vs = .ret r out s →
      r = -1 → s.errno = Err.wouldBlock → s.bus = bus) ∧
    (∀ bus errno channel capacity r out s,
      coro_bus_try_recv_v bus errno channel capacity = .ret r out s →
      r = -1 → s.errno = Err.wouldBlock → s.bus = bus) :=
  ⟨fun _ _ _ _ _ _ _ h hr he => try_send_wb_frame h hr he,
   fun _ _ _ _ _ _ h hr he => try_recv_wb_frame h hr he,
   fun _ _ _ _ _ _ h hr he => try_broadcast_wb_frame h hr he,
   fun _ _ _ _ _ _ _ h hr he => try_send_v_wb_frame h hr he,
   fun _ _ _ _ _ _ _ h hr he => try_recv_v_wb_frame h hr he⟩

/-- Witness for C3: `try_broadcast` on the spec's scenario (`A(capacity 2,
used 0)`, `B(capacity 1, used 1)`) fails `WouldBlock` and neither channel
changes. -/
theorem c3_wouldblock_no_mutation_witness :
    (⟨busAB, Err.wouldBlock, []⟩ : St).bus = busAB :=
  c3_wouldblock_no_mutation.2.2.1 busAB Err.none 5 (-1) []
    ⟨busAB, Err.wouldBlock, []⟩ rfl rfl rfl

/-! ## Claim C9 -/

theorem send_attempt_fail_err {self : TaskId} {bus : CoroBus} {errno : Err}
    {channel : Int} {v : Val} {r : Int} {out : List Val} {s : St}
    (h : coro_bus_send_attempt self bus errno channel v = .ret r out s)
    (hr : r = -1) : s.errno = Err.noChannel := by
  unfold coro_bus_send_attempt at h
  split at h
  · cases h; rfl
  · split at h
    · split at h
      · cases h; exact absurd hr (by decide)
      · cases h
    · cases h

theorem send_resume_fail_err {self : TaskId} {bus : CoroBus} {errno : Err}
    {channel : Int} {chanId : Nat} {v : Val} {r : Int} {out : List Val} {s : St}
    (h : coro_bus_send_resume self bus errno channel chanId v = .ret r out s)
    (hr : r = -1) : s.errno = Err.noChannel := by
  unfold coro_bus_send_resume at h
  dsimp only at h
  split at h
  · split at h
    · exact send_attempt_fail_err h hr
    · cases h; rfl
  · cases h; rfl

theorem recv_attempt_fail_err {self : TaskId} {bus : CoroBus} {errno : Err}
    {channel : Int} {r : Int} {out : List Val} {s : St}
    (h : coro_bus_recv_attempt self bus errno channel = .ret r out s)
    (hr : r = -1) : s.errno = Err.noChannel := by
  unfold coro_bus_recv_attempt at h
  split at h
  · cases h; rfl
  · split at h
    · cases h
    · cases h; rfl
    · split at h
      · cases h
      · cases h; exact absurd hr (by decide)

theorem recv_resume_fail_err {self : TaskId} {bus : CoroBus} {errno : Err}
    {channel : Int} {chanId : Nat} {r : Int} {out : List Val} {s : St}
    (h : coro_bus_recv_resume self bus errno channel chanId = .ret r out s)
    (hr : r = -1) : s.errno = Err.noChannel := by
  unfold coro_bus_recv_resume at h
  dsimp only at h
  split at h
  · split at h
    · split at h
      · cases h
      · cases h; exact absurd hr (by decide)
    · cases h; rfl
  · cases h; rfl

theorem broadcast_attempt_fail_err {self : TaskId} {bus : CoroBus} {errno : Err}
    {v : Val} {r : Int} {out : List Val} {s : St}
    (h : coro_bus_broadcast_attempt self bus errno v = .ret r out s)
    (hr : r = -1) : s.errno = Err.noChannel := by
  unfold coro_bus_broadcast_attempt at h
  split at h
  · cases h; rfl
  · split at h
    · cases h; rfl
    · split at h
      · cases h; exact absurd hr (by decide)
      · dsimp only at h
        split at h
        · cases h
        · cases h

theorem send_v_pass_fail_err {self : TaskId} {bus : CoroBus} {errno : Err}
    {channel : Int} {vs : List Val} {r : Int} {out : List Val} {s : St}
    (h : coro_bus_send_v_pass self bus errno channel vs = .ret r out s)
    (hr : r = -1) : s.errno = Err.noChannel := by
  unfold coro_bus_send_v_pass at h
  split at h
  · dsimp only at h
    split at h
    · cases h
    · cases h; exact absurd hr (ofNat_ne_neg_one _)
  · cases h

theorem send_v_attempt_fail_err {self : TaskId} {bus : CoroBus} {errno : Err}
    {channel : Int} {vs : List Val} {r : Int} {out : List Val} {s : St}
    (h : coro_bus_send_v_attempt self bus errno channel vs = .ret r out s)
    (hr : r = -1) : s.errno = Err.noChannel := by
  unfold coro_bus_send_v_attempt at h
  split at h
  · cases h; rfl
  · exact send_v_pass_fail_err h hr

theorem send_v_resume_fail_err {self : TaskId} {bus : CoroBus} {errno : Err}
    {channel : Int} {chanId : Nat} {vs : List Val} {r : Int} {out : List Val} {s : St}
    (h : coro_bus_send_v_resume self bus errno channel chanId vs = .ret r out s)
    (hr : r = -1) : s.errno = Err.noChannel := by
  unfold coro_bus_send_v_resume at h
  dsimp only at h
  split at h
  · split at h
    · exact send_v_pass_fail_err h hr
    · cases h; rfl
  · cases h; rfl

theorem try_recv_v_ret_neg {bus : CoroBus} {errno : Err} {channel : Int}
    {capacity : Nat} {r : Int} {out : List Val} {s : St}
    (h : coro_bus_try_recv_v bus errno channel capacity = .ret r out s)
    (hr : r < 0) : s.errno = Err.noChannel ∨ s.errno = Err.wouldBlock := by
  unfold coro_bus_try_recv_v at h
  split at h
  · cases h; exact Or.inl rfl
  · split at h
    · split at h
      · cases h; exact Or.inr rfl
      · cases h; exact absurd hr (by simp)
    · cases h

theorem recv_v_loop_fail_err {self : TaskId} {bus : CoroBus} {errno : Err}
    {channel : Int} {capacity : Nat} {r : Int} {out : List Val} {s : St}
    (h : coro_bus_recv_v_loop self bus errno channel capacity = .ret r out s)
    (hr : r = -1) : s.errno = Err.noChannel := by
  unfold coro_bus_recv_v_loop at h
  cases ho : coro_bus_try_recv_v bus errno channel capacity with
  | ret r0 out0 s0 =>
    rw [ho] at h
    dsimp only at h
    split at h
    · split at h
      · split at h
        · cases h
        · cases h
      · cases h
        rcases try_recv_v_ret_neg ho (by omega) with h1 | h1
        · exact h1
        · exact absurd h1 (by assumption)
    · split at h
      · split at h
        · cases h; omega
        · cases h; omega
      · cases h
  | park a b c d => rw [ho] at h; cases h
  | parkMany a b => rw [ho] at h; cases h
  | yielded a => rw [ho] at h; cases h
  | ub => rw [ho] at h; cases h

theorem recv_v_attempt_fail_err {self : TaskId} {bus : CoroBus} {errno : Err}
    {channel : Int} {capacity : Nat} {r : Int} {out : List Val} {s : St}
    (h : coro_bus_recv_v_attempt self bus errno channel capacity = .ret r out s)
    (hr : r = -1) : s.errno = Err.noChannel := by
  unfold coro_bus_recv_v_attempt at h
  split at h
  · cases h; rfl
  · exact recv_v_loop_fail_err h hr

theorem recv_v_resume_fail_err {self : TaskId} {bus : CoroBus} {errno : Err}
    {channel : Int} {capacity : Nat} {r : Int} {out : List Val} {s : St}
    (h : coro_bus_recv_v_resume self bus errno channel capacity = .ret r out s)
    (hr : r = -1) : s.errno = Err.noChannel :=
  recv_v_loop_fail_err h hr

theorem try_send_no_suspend (bus : CoroBus) (errno : Err) (channel : Int) (v : Val) :
    (coro_bus_try_send bus errno channel v).isSuspend = false := by
  unfold coro_bus_try_send
  split
  · rfl
  · split
    · split
      · rfl
      · rfl
    · rfl

theorem try_recv_no_suspend (bus : CoroBus) (errno : Err) (channel : Int) :
    (coro_bus_try_recv bus errno channel).isSuspend = false := by
  unfold coro_bus_try_recv
  split
  · rfl
  · split
    · rfl
    · rfl
    · split
      · rfl
      · rfl

theorem try_broadcast_no_suspend (bus : CoroBus) (errno : Err) (v : Val) :
    (coro_bus_try_broadcast bus errno v).isSuspend = false := by
  unfold coro_bus_try_broadcast
  split
  · rfl
  · split
    · rfl
    · split
      · rfl
      · rfl

theorem try_send_v_no_suspend (bus : CoroBus) (errno : Err) (channel : Int)
    (vs : List Val) : (coro_bus_try_send_v bus errno channel vs).isSuspend = false := by
  unfold coro_bus_try_send_v
  split
  · rfl
  · split
    · dsimp only
      split
      · rfl
      · rfl
    · rfl

theorem try_recv_v_no_suspend (bus : CoroBus) (errno : Err) (channel : Int)
    (capacity : Nat) : (coro_bus_try_recv_v bus errno channel capacity).isSuspend = false := by
  unfold coro_bus_try_recv_v
  split
  · rfl
  · split
    · split
      · rfl
      · rfl
    · rfl

/-- Claim C9: every value a blocking operation (`send`, `recv`, `broadcast`,
`send_many`, `recv_many`) can return — i.e. every `ret` outcome of any of
its entry or post-wakeup steps — is never a `WouldBlock` failure (they
suspend instead), and no non-blocking operation (`try_send`, `try_recv`,
`try_broadcast`, `try_send_many`, `try_recv_many`) ever suspends the
calling task. -/
theorem c9_blocking_discipline :
    (∀ self bus errno channel v r out s,
      coro_bus_send_attempt self bus errno channel v = .ret r out s →
      ¬(r = -1 ∧ s.errno = Err.wouldBlock)) ∧
    (∀ self bus errno channel chanId v r out s,
      coro_bus_send_resume self bus errno channel chanId v = .ret r out s →
      ¬(r = -1 ∧ s.errno = Err.wouldBlock)) ∧
    (∀ self bus errno channel r out s,
      coro_bus_recv_attempt self bus errno channel = .ret r out s →
      ¬(r = -1 ∧ s.errno = Err.wouldBlock)) ∧
    (∀ self bus errno channel chanId r out s,
      coro_bus_recv_resume self bus errno channel chanId = .ret r out s →
      ¬(r = -1 ∧ s.errno = Err.wouldBlock)) ∧
    (∀ self bus errno v r out s,
      coro_bus_broadcast_attempt self bus errno v = .ret r out s →
      ¬(r = -1 ∧ s.errno = Err.wouldBlock)) ∧
    (∀ self bus errno channel vs r out s,
      coro_bus_send_v_attempt self bus errno channel vs = .ret r out s →
      ¬(r = -1 ∧ s.errno = Err.wouldBlock)) ∧
    (∀ self bus errno channel chanId vs r out s,
      coro_bus_send_v_resume self bus errno channel chanId vs = .ret r out s →
      ¬(r = -1 ∧ s.errno = Err.wouldBlock)) ∧
    (∀ self bus errno channel capacity r out s,
      coro_bus_recv_v_attempt self bus errno channel capacity = .ret r out s →
      ¬(r = -1 ∧ s.errno = Err.wouldBlock)) ∧
    (∀ self bus errno channel capacity r out s,
      coro_bus_recv_v_resume self bus errno channel capacity = .ret r out s →
      ¬(r = -1 ∧ s.errno = Err.wouldBlock)) ∧
    (∀ bus errno channel v,
      (coro_bus_try_send bus errno channel v).isSuspend = false) ∧
    (∀ bus errno channel,
      (coro_bus_try_recv bus errno channel).isSuspend = false) ∧
    (∀ bus errno v,
      (coro_bus_try_broadcast bus errno v).isSuspend = false) ∧
    (∀ bus errno channel vs,
      (coro_bus_try_send_v bus errno channel vs).isSuspend = false) ∧
    (∀ bus errno channel capacity,
      (coro_bus_try_recv_v bus errno channel capacity).isSuspend = false) := by
  refine ⟨?_, ?_, ?_, ?_, ?_, ?_, ?_, ?_, ?_,
    try_send_no_suspend, try_recv_no_suspend, try_broadcast_no_suspend,
    try_send_v_no_suspend, try_recv_v_no_suspend⟩
  · intro _ _ _ _ _ _ _ _ h ⟨hr, he⟩
    rw [send_attempt_fail_err h hr] at he; cases he
  · intro _ _ _ _ _ _ _ _ _ h ⟨hr, he⟩
    rw [send_resume_fail_err h hr] at he; cases he
  · intro _ _ _ _ _ _ _ h ⟨hr, he⟩
    rw [recv_attempt_fail_err h hr] at he; cases he
  · intro _ _ _ _ _ _ _ _ h ⟨hr, he⟩
    rw [recv_resume_fail_err h hr] at he; cases he
  · intro _ _ _ _ _ _ _ h ⟨hr, he⟩
    rw [broadcast_attempt_fail_err h hr] at he; cases he
  · intro _ _ _ _ _ _ _ _ h ⟨hr, he⟩
    rw [send_v_attempt_fail_err h hr] at he; cases he
  · intro _ _ _ _ _ _ _ _ _ h ⟨hr, he⟩
    rw [send_v_resume_fail_err h hr] at he; cases he
  · intro _ _ _ _ _ _ _ _ h ⟨hr, he⟩
    rw [recv_v_attempt_fail_err h hr] at he; cases he
  · intro _ _ _ _ _ _ _ _ h ⟨hr, he⟩
    rw [recv_v_resume_fail_err h hr] at he; cases he

/-- Witness for C9: a `coro_bus_send` failure on an empty bus is a
`NoChannel`, not a `WouldBlock`, failure. -/
theorem c9_blocking_discipline_witness :
    ¬((-1 : Int) = -1 ∧ (⟨⟨[], 0⟩, Err.noChannel, []⟩ : St).errno = Err.wouldBlock) :=
  c9_blocking_discipline.1 0 ⟨[], 0⟩ Err.none 0 5 (-1) []
    ⟨⟨[], 0⟩, Err.noChannel, []⟩ rfl

/-! ## Claim C2 -/

theorem chanAt_coe {bus : CoroBus} {slot : Nat} :
    chanAt bus (slot : Int) = bus.channels.get? slot := by
  unfold chanAt
  rw [if_neg (not_lt.mpr (by positivity))]
  rfl

theorem send_resume_slot_none {t : TaskId} {bus : CoroBus} {errno : Err}
    {slot : Nat} {chanId : Nat} {v : Val}
    (hslot : bus.channels.get? slot = some Option.none) :
    coro_bus_send_resume t bus errno (slot : Int) chanId v =
      .ret (-1) [] ⟨bus, Err.noChannel, []⟩ := by
  have htoNat : ((slot : Int)).toNat = slot := rfl
  have hAt : chanAt bus (slot : Int) = some Option.none := by
    rw [chanAt_coe]; exact hslot
  unfold coro_bus_send_resume removeWaiter
  rw [htoNat, hslot]
  dsimp only
  rw [hAt]

theorem recv_resume_slot_none {t : TaskId} {bus : CoroBus} {errno : Err}
    {slot : Nat} {chanId : Nat}
    (hslot : bus.channels.get? slot = some Option.none) :
    coro_bus_recv_resume t bus errno (slot : Int) chanId =
      .ret (-1) [] ⟨bus, Err.noChannel, []⟩ := by
  have htoNat : ((slot : Int)).toNat = slot := rfl
  have hAt : chanAt bus (slot : Int) = some Option.none := by
    rw [chanAt_coe]; exact hslot
  unfold coro_bus_recv_resume removeWaiter
  rw [htoNat, hslot]
  dsimp only
  rw [hAt]

/-- Claim C2: closing a channel empties its slot, wakes every task parked in
a blocking `send` or `recv` on it, and each of those tasks, upon resuming,
fails its channel-identity recheck against the now-empty slot and returns
`-1` observing the `NoChannel` error — no parked task remains parked on the
closed channel and none accesses freed channel state. -/
theorem c2_close_wakes_parked (bus : CoroBus) (errno : Err) (slot : Nat) (ch : Chan)
    (hch : bus.channels.get? slot = some (some ch)) :
    ((coro_bus_channel_close bus errno (slot : Int)).1.channels.get? slot =
      some Option.none) ∧
    (∀ t, t ∈ ch.recv_queue ++ ch.send_queue →
      t ∈ (coro_bus_channel_close bus errno (slot : Int)).2.2) ∧
    (∀ t v, coro_bus_send_resume t (coro_bus_channel_close bus errno (slot : Int)).1
        (coro_bus_channel_close bus errno (slot : Int)).2.1 (slot : Int) ch.id v =
      .ret (-1) [] ⟨(coro_bus_channel_close bus errno (slot : Int)).1,
        Err.noChannel, []⟩) ∧
    (∀ t, coro_bus_recv_resume t (coro_bus_channel_close bus errno (slot : Int)).1
        (coro_bus_channel_close bus errno (slot : Int)).2.1 (slot : Int) ch.id =
      .ret (-1) [] ⟨(coro_bus_channel_close bus errno (slot : Int)).1,
        Err.noChannel, []⟩) := by
  have hchAt : chanAt bus (slot : Int) = some (some ch) := by
    rw [chanAt_coe]; exact hch
  have hlt := lt_length_of_get? hch
  have hinv := invalidHandle_false hchAt
  have hclose : coro_bus_channel_close bus errno (slot : Int) =
      (setChanAt bus slot Option.none,
       if (ch.recv_queue ++ ch.send_queue).isEmpty then errno else Err.noChannel,
       ch.recv_queue ++ ch.send_queue) := by
    unfold coro_bus_channel_close
    rw [hinv]
    simp only [Bool.false_eq_true, if_false, hchAt]
    rfl
  have hslot : (setChanAt bus slot Option.none).channels.get? slot =
      some Option.none := by
    unfold setChanAt
    exact get?_set_self _ (by simpa using hlt)
  rw [hclose]
  exact ⟨hslot, fun t ht => ht,
    fun t v => send_resume_slot_none hslot,
    fun t => recv_resume_slot_none hslot⟩

/-- Witness for C2: closing the capacity-1 channel with senders 4, 5 and
receiver 6 parked on it wakes 6 and 4, and sender 4's resumption returns
`-1` with `NoChannel`. -/
theorem c2_close_wakes_parked_witness :
    ((coro_bus_channel_close busParked Err.none ((0 : Nat) : Int)).1.channels.get? 0 =
      some Option.none) ∧
    (4 ∈ (coro_bus_channel_close busParked Err.none ((0 : Nat) : Int)).2.2) ∧
    (6 ∈ (coro_bus_channel_close busParked Err.none ((0 : Nat) : Int)).2.2) ∧
    (coro_bus_send_resume 4 (coro_bus_channel_close busParked Err.none ((0 : Nat) : Int)).1
        (coro_bus_channel_close busParked Err.none ((0 : Nat) : Int)).2.1 ((0 : Nat) : Int) 0 9 =
      .ret (-1) [] ⟨(coro_bus_channel_close busParked Err.none ((0 : Nat) : Int)).1,
        Err.noChannel, []⟩) := by
  obtain ⟨h1, h2, h3, h4⟩ :=
    c2_close_wakes_parked busParked Err.none 0 ⟨0, 1, [7], [4, 5], [6]⟩ rfl
  exact ⟨h1, h2 4 (by decide), h2 6 (by decide), h3 4 9⟩

/-! ## Claim C7 -/

/-- Counterexample for C7: on an idle channel of capacity `2 ^ 32` the room
is `2 ^ 32 ≠ 0`, yet `try_send_many` of one value fails with `WouldBlock`
and transfers nothing, because the `size_t` difference
`size_limit - data.size` is assigned to a 32-bit `unsigned space`, which
truncates `2 ^ 32` to `0` — refuting "fails with WouldBlock if and only if
the available room is exactly zero". -/
theorem c7_counterexample :
    coro_bus_try_send_v busHuge Err.none 0 [1] =
      .ret (-1) [] ⟨busHuge, Err.wouldBlock, []⟩ ∧
    chanHuge.size_limit - chanHuge.data.length ≠ 0 :=
  ⟨rfl, by decide⟩

/-- Claim C7 (amended): on a valid channel (pending count within the
capacity) whose capacity fits the 32-bit `unsigned space` (below `2 ^ 32`;
larger capacities hit the truncation of `size_limit - size` shown by the
counterexample), `try_send_many` fails with `WouldBlock` exactly when the
available room `capacity - pending` is zero; with positive room it
transfers exactly `min(room, count)` values in one pass, appending them at
the tail, and returns that count. -/
theorem c7_try_send_v_spec (bus : CoroBus) (errno : Err) (channel : Int)
    (ch : Chan) (vs : List Val)
    (hch : chanAt bus channel = some (some ch))
    (hinv : ch.data.length ≤ ch.size_limit)
    (hlim : ch.size_limit < 2 ^ 32) :
    (ch.size_limit - ch.data.length = 0 →
      coro_bus_try_send_v bus errno channel vs =
        .ret (-1) [] ⟨bus, Err.wouldBlock, []⟩) ∧
    (0 < ch.size_limit - ch.data.length →
      coro_bus_try_send_v bus errno channel vs =
        .ret (Int.ofNat (min vs.length (ch.size_limit - ch.data.length))) []
          ⟨setChanAt bus channel.toNat
             (some { ch with data :=
               ch.data ++ vs.take (min vs.length (ch.size_limit - ch.data.length)) }),
           errno,
           (List.replicate (min vs.length (ch.size_limit - ch.data.length))
              (wakeup_queue_wakeup_first ch.recv_queue)).flatten ++
             wakeup_queue_wakeup_first ch.send_queue⟩) ∧
    (∀ s, coro_bus_try_send_v bus errno channel vs = .ret (-1) [] s →
      s.errno = Err.wouldBlock → ch.size_limit - ch.data.length = 0) := by
  have hiv := invalidHandle_false hch
  have husub : u32 (usub64 ch.size_limit ch.data.length) =
      ch.size_limit - ch.data.length := by
    rw [usub64_of_le hinv (by omega)]
    simp only [u32]
    exact Nat.mod_eq_of_lt (by omega)
  have hbody : coro_bus_try_send_v bus errno channel vs =
      if ch.size_limit - ch.data.length = 0 then
        .ret (-1) [] ⟨bus, Err.wouldBlock, []⟩
      else
        .ret (Int.ofNat (min vs.length (ch.size_limit - ch.data.length))) []
          ⟨setChanAt bus channel.toNat
             (some { ch with data :=
               ch.data ++ vs.take (min vs.length (ch.size_limit - ch.data.length)) }),
           errno,
           (List.replicate (min vs.length (ch.size_limit - ch.data.length))
              (wakeup_queue_wakeup_first ch.recv_queue)).flatten ++
             wakeup_queue_wakeup_first ch.send_queue⟩ := by
    unfold coro_bus_try_send_v
    rw [hiv]
    simp only [Bool.false_eq_true, if_false, hch]
    rw [husub]
  refine ⟨fun h0 => by rw [hbody, if_pos h0], fun hpos => by rw [hbody, if_neg (by omega)],
    fun s hs he => ?_⟩
  by_cases h0 : ch.size_limit - ch.data.length = 0
  · exact h0
  · rw [hbody, if_neg h0] at hs
    cases hs

/-- Witness for C7 at the spec's scenario: 5 values into an idle capacity-3
channel transfer exactly 3. -/
theorem c7_try_send_v_spec_witness :
    coro_bus_try_send_v busEmptyCap3 Err.none 0 [1, 2, 3, 4, 5] =
      .ret 3 [] ⟨busCap3After, Err.none, []⟩ := by
  have h := (c7_try_send_v_spec busEmptyCap3 Err.none 0 ⟨0, 3, [], [], []⟩
    [1, 2, 3, 4, 5] rfl (by decide) (by decide)).2.1 (by decide)
  rw [h]
  rfl

/-! ## Claim C1 -/

theorem capInv_of_get? {bus : CoroBus} {slot : Nat} {ch : Chan}
    (hinv : capacityInvariant bus = true)
    (hch : bus.channels.get? slot = some (some ch)) :
    ch.data.length ≤ ch.size_limit := by
  have hmem := List.get?_mem hch
  rw [capacityInvariant, List.all_eq_true] at hinv
  simpa using hinv _ hmem

theorem capInv_of_chanAt {bus : CoroBus} {channel : Int} {ch : Chan}
    (hinv : capacityInvariant bus = true)
    (hch : chanAt bus channel = some (some ch)) :
    ch.data.length ≤ ch.size_limit :=
  capInv_of_get? hinv (chanAt_get? hch)

theorem sizes_of_chanAt {bus : CoroBus} {channel : Int} {ch : Chan}
    (hsz : sizesMachine bus = true)
    (hch : chanAt bus channel = some (some ch)) :
    ch.size_limit < 2 ^ 64 := by
  have hmem := List.get?_mem (chanAt_get? hch)
  rw [sizesMachine, List.all_eq_true] at hsz
  simpa using hsz _ hmem

theorem capInv_set {bus : CoroBus} {i : Nat} {ch : Chan}
    (hinv : capacityInvariant bus = true)
    (hlen : ch.data.length ≤ ch.size_limit) :
    capacityInvariant (setChanAt bus i (some ch)) = true := by
  rw [capacityInvariant] at hinv ⊢
  exact all_set_of_all hinv (by simpa using hlen) i

theorem sizes_set {bus : CoroBus} {i : Nat} {ch : Chan}
    (hsz : sizesMachine bus = true)
    (hlim : ch.size_limit < 2 ^ 64) :
    sizesMachine (setChanAt bus i (some ch)) = true := by
  rw [sizesMachine] at hsz ⊢
  exact all_set_of_all hsz (by simpa using hlim) i

theorem removeWaiter_preserves_cap {bus : CoroBus} {slot : Nat} {side : Side}
    {self : TaskId} (hinv : capacityInvariant bus = true) :
    capacityInvariant (removeWaiter bus slot side self) = true := by
  unfold removeWaiter
  split
  · rename_i chan heq
    have hc := capInv_of_get? hinv heq
    cases side
    · exact capInv_set hinv hc
    · exact capInv_set hinv hc
  · exact hinv

theorem sizes_removeWaiter {bus : CoroBus} {slot : Nat} {side : Side}
    {self : TaskId} (hsz : sizesMachine bus = true) :
    sizesMachine (removeWaiter bus slot side self) = true := by
  unfold removeWaiter
  split
  · rename_i chan heq
    have hc : chan.size_limit < 2 ^ 64 := by
      have hmem := List.get?_mem heq
      rw [sizesMachine, List.all_eq_true] at hsz
      simpa using hsz _ hmem
    cases side
    · exact sizes_set hsz hc
    · exact sizes_set hsz hc
  · exact hsz

theorem slack_of_capInv {bus : CoroBus} (hinv : capacityInvariant bus = true) :
    broadcastCapSlack bus = true := by
  rw [capacityInvariant, List.all_eq_true] at hinv
  rw [broadcastCapSlack, List.all_eq_true]
  intro s hs
  have h1 := hinv s hs
  cases s with
  | none => rfl
  | some ch =>
    simp only [decide_eq_true_eq] at h1
    simp only [Bool.and_eq_true, Bool.or_eq_true, decide_eq_true_eq]
    exact ⟨by omega, Or.inr (by omega)⟩

theorem send_attempt_preserves_cap {self : TaskId} {bus : CoroBus} {errno : Err}
    {channel : Int} {v : Val} {b' : CoroBus}
    (hinv : capacityInvariant bus = true)
    (hb : (coro_bus_send_attempt self bus errno channel v).busOf = some b') :
    capacityInvariant b' = true := by
  unfold coro_bus_send_attempt at hb
  split at hb
  · simp only [Outcome.busOf, Option.some.injEq] at hb
    subst hb; exact hinv
  · split at hb
    · rename_i chan heq
      split at hb
      · rename_i hroom
        simp only [Outcome.busOf, Option.some.injEq] at hb
        subst hb
        refine capInv_set hinv ?_
        simp only [data_vector_append, data_vector_append_many, List.length_append,
          List.length_cons, List.length_nil]
        omega
      · simp only [Outcome.busOf, Option.some.injEq] at hb
        subst hb
        refine capInv_set hinv ?_
        show chan.data.length ≤ chan.size_limit
        exact capInv_of_chanAt hinv heq
    · simp only [Outcome.busOf] at hb
      cases hb

theorem try_send_preserves_cap {bus : CoroBus} {errno : Err}
    {channel : Int} {v : Val} {b' : CoroBus}
    (hinv : capacityInvariant bus = true)
    (hb : (coro_bus_try_send bus errno channel v).busOf = some b') :
    capacityInvariant b' = true := by
  unfold coro_bus_try_send at hb
  split at hb
  · simp only [Outcome.busOf, Option.some.injEq] at hb
    subst hb; exact hinv
  · split at hb
    · rename_i chan heq
      split at hb
      · simp only [Outcome.busOf, Option.some.injEq] at hb
        subst hb; exact hinv
      · rename_i hroom
        simp only [Outcome.busOf, Option.some.injEq] at hb
        subst hb
        refine capInv_set hinv ?_
        simp only [data_vector_append, data_vector_append_many, List.length_append,
          List.length_cons, List.length_nil]
        omega
    · simp only [Outcome.busOf] at hb
      cases hb

theorem send_resume_preserves_cap {self : TaskId} {bus : CoroBus} {errno : Err}
    {channel : Int} {chanId : Nat} {v : Val} {b' : CoroBus}
    (hinv : capacityInvariant bus = true)
    (hb : (coro_bus_send_resume self bus errno channel chanId v).busOf = some b') :
    capacityInvariant b' = true := by
  have hinv1 : capacityInvariant (removeWaiter bus channel.toNat .send self) = true :=
    removeWaiter_preserves_cap hinv
  unfold coro_bus_send_resume at hb
  dsimp only at hb
  split at hb
  · split at hb
    · exact send_attempt_preserves_cap hinv1 hb
    · simp only [Outcome.busOf, Option.some.injEq] at hb
      subst hb; exact hinv1
  · simp only [Outcome.busOf, Option.some.injEq] at hb
    subst hb; exact hinv1

theorem send_v_pass_preserves_cap {self : TaskId} {bus : CoroBus} {errno : Err}
    {channel : Int} {vs : List Val} {b' : CoroBus}
    (hinv : capacityInvariant bus = true) (hsz : sizesMachine bus = true)
    (hb : (coro_bus_send_v_pass self bus errno channel vs).busOf = some b') :
    capacityInvariant b' = true := by
  unfold coro_bus_send_v_pass at hb
  split at hb
  · rename_i chan heq
    dsimp only at hb
    split at hb
    · simp only [Outcome.busOf, Option.some.injEq] at hb
      subst hb
      refine capInv_set hinv ?_
      show chan.data.length ≤ chan.size_limit
      exact capInv_of_chanAt hinv heq
    · rename_i hspace
      simp only [Outcome.busOf, Option.some.injEq] at hb
      subst hb
      refine capInv_set hinv ?_
      have h1 := capInv_of_chanAt hinv heq
      have h2 := sizes_of_chanAt hsz heq
      have husub := usub64_of_le h1 h2
      simp only [List.length_append, List.length_take, u32]
      rw [husub]
      omega
  · simp only [Outcome.busOf] at hb
    cases hb

theorem send_v_attempt_preserves_cap {self : TaskId} {bus : CoroBus} {errno : Err}
    {channel : Int} {vs : List Val} {b' : CoroBus}
    (hinv : capacityInvariant bus = true) (hsz : sizesMachine bus = true)
    (hb : (coro_bus_send_v_attempt self bus errno channel vs).busOf = some b') :
    capacityInvariant b' = true := by
  unfold coro_bus_send_v_attempt at hb
  split at hb
  · simp only [Outcome.busOf, Option.some.injEq] at hb
    subst hb; exact hinv
  · exact send_v_pass_preserves_cap hinv hsz hb

theorem send_v_resume_preserves_cap {self : TaskId} {bus : CoroBus} {errno : Err}
    {channel : Int} {chanId : Nat} {vs : List Val} {b' : CoroBus}
    (hinv : capacityInvariant bus = true) (hsz : sizesMachine bus = true)
    (hb : (coro_bus_send_v_resume self bus errno channel chanId vs).busOf = some b') :
    capacityInvariant b' = true := by
  have hinv1 : capacityInvariant (removeWaiter bus channel.toNat .send self) = true :=
    removeWaiter_preserves_cap hinv
  have hsz1 : sizesMachine (removeWaiter bus channel.toNat .send self) = true :=
    sizes_removeWaiter hsz
  unfold coro_bus_send_v_resume at hb
  dsimp only at hb
  split at hb
  · split at hb
    · exact send_v_pass_preserves_cap hinv1 hsz1 hb
    · simp only [Outcome.busOf, Option.some.injEq] at hb
      subst hb; exact hinv1
  · simp only [Outcome.busOf, Option.some.injEq] at hb
    subst hb; exact hinv1

theorem try_send_v_preserves_cap {bus : CoroBus} {errno : Err}
    {channel : Int} {vs : List Val} {b' : CoroBus}
    (hinv : capacityInvariant bus = true) (hsz : sizesMachine bus = true)
    (hb : (coro_bus_try_send_v bus errno channel vs).busOf = some b') :
    capacityInvariant b' = true := by
  unfold coro_bus_try_send_v at hb
  split at hb
  · simp only [Outcome.busOf, Option.some.injEq] at hb
    subst hb; exact hinv
  · split at hb
    · rename_i chan heq
      dsimp only at hb
      split at hb
      · simp only [Outcome.busOf, Option.some.injEq] at hb
        subst hb; exact hinv
      · simp only [Outcome.busOf, Option.some.injEq] at hb
        subst hb
        refine capInv_set hinv ?_
        have h1 := capInv_of_chanAt hinv heq
        have h2 := sizes_of_chanAt hsz heq
        have husub := usub64_of_le h1 h2
        simp only [List.length_append, List.length_take, u32]
        rw [husub]
        omega
    · simp only [Outcome.busOf] at hb
      cases hb

theorem try_broadcast_preserves_cap {bus : CoroBus} {errno : Err}
    {v : Val} {b' : CoroBus}
    (hinv : capacityInvariant bus = true)
    (hb : (coro_bus_try_broadcast bus errno v).busOf = some b') :
    capacityInvariant b' = true := by
  unfold coro_bus_try_broadcast at hb
  split at hb
  · simp only [Outcome.busOf, Option.some.injEq] at hb
    subst hb; exact hinv
  · split at hb
    · simp only [Outcome.busOf, Option.some.injEq] at hb
      subst hb; exact hinv
    · split at hb
      · simp only [Outcome.busOf, Option.some.injEq] at hb
        subst hb; exact hinv
      · rename_i hnofull
        simp only [Outcome.busOf, Option.some.injEq] at hb
        subst hb
        rw [capacityInvariant, List.all_eq_true]
        intro s hs
        rw [List.mem_map] at hs
        obtain ⟨s0, hs0, rfl⟩ := hs
        have h1 : (fun s => match s with
            | Option.none => true
            | some ch => decide (ch.data.length ≤ ch.size_limit)) s0 = true := by
          rw [capacityInvariant, List.all_eq_true] at hinv
          exact hinv s0 hs0
        cases s0 with
        | none => rfl
        | some ch =>
          simp only [decide_eq_true_eq] at h1
          have h2 : ¬ ((fun s => match s with
              | Option.none => false
              | some chan => decide (chan.size_limit ≤ chan.data.length)) (some ch) = true) := by
            intro hc
            exact hnofull (List.any_eq_true.mpr ⟨some ch, hs0, hc⟩)
          simp only [decide_eq_true_eq] at h2
          simp only [data_vector_append, data_vector_append_many]
          simp only [decide_eq_true_eq, List.length_append, List.length_cons,
            List.length_nil]
          omega

theorem broadcast_attempt_preserves_slack {self : TaskId} {bus : CoroBus}
    {errno : Err} {v : Val} {b' : CoroBus}
    (hinv : capacityInvariant bus = true)
    (hb : (coro_bus_broadcast_attempt self bus errno v).busOf = some b') :
    broadcastCapSlack b' = true := by
  unfold coro_bus_broadcast_attempt at hb
  split at hb
  · simp only [Outcome.busOf, Option.some.injEq] at hb
    subst hb; exact slack_of_capInv hinv
  · split at hb
    · simp only [Outcome.busOf, Option.some.injEq] at hb
      subst hb; exact slack_of_capInv hinv
    · split at hb
      · rename_i hready
        simp only [Outcome.busOf, Option.some.injEq] at hb
        subst hb
        rw [broadcastCapSlack, List.all_eq_true]
        intro s hs
        rw [List.mem_map] at hs
        obtain ⟨s0, hs0, rfl⟩ := hs
        have h1 : (fun s => match s with
            | Option.none => true
            | some ch => decide (ch.data.length ≤ ch.size_limit)) s0 = true := by
          rw [capacityInvariant, List.all_eq_true] at hinv
          exact hinv s0 hs0
        have h2 : (fun s => match s with
            | Option.none => true
            | some chan => !broadcastNotReady chan) s0 = true :=
          (List.all_eq_true.mp hready) s0 hs0
        cases s0 with
        | none => rfl
        | some ch =>
          simp only [decide_eq_true_eq] at h1
          simp only [Bool.not_eq_true', broadcastNotReady] at h2
          rw [Bool.and_eq_false_iff] at h2
          simp only [data_vector_append, data_vector_append_many, Bool.and_eq_true,
            Bool.or_eq_true, decide_eq_true_eq, List.length_append, List.length_cons,
            List.length_nil, Bool.not_eq_true']
          refine ⟨by omega, ?_⟩
          rcases h2 with h2 | h2
          · simp only [decide_eq_false_iff_not] at h2
            exact Or.inr (by omega)
          · exact Or.inl h2
      · dsimp only at hb
        split at hb
        · simp only [Outcome.busOf, Option.some.injEq] at hb
          subst hb; exact slack_of_capInv hinv
        · simp only [Outcome.busOf, Option.some.injEq] at hb
          subst hb
          rw [broadcastCapSlack, List.all_eq_true]
          intro s hs
          rw [List.mem_map] at hs
          obtain ⟨s0, hs0, rfl⟩ := hs
          have h1 : (fun s => match s with
              | Option.none => true
              | some ch => decide (ch.data.length ≤ ch.size_limit)) s0 = true := by
            rw [capacityInvariant, List.all_eq_true] at hinv
            exact hinv s0 hs0
          cases s0 with
          | none => rfl
          | some ch =>
            simp only [decide_eq_true_eq] at h1
            by_cases hnr : broadcastNotReady ch = true
            · dsimp only
              rw [if_pos hnr]
              simp only [Bool.and_eq_true, Bool.or_eq_true, decide_eq_true_eq,
                Bool.not_eq_true']
              exact ⟨by omega, Or.inr (by omega)⟩
            · dsimp only
              rw [if_neg hnr]
              simp only [Bool.and_eq_true, Bool.or_eq_true, decide_eq_true_eq,
                Bool.not_eq_true']
              exact ⟨by omega, Or.inr (by omega)⟩

/-- Counterexample for C1: the bus holds one capacity-1 channel that is full
(`[7]`) with receiver 3 parked on it — a state satisfying the capacity
invariant — and a completed blocking `broadcast` leaves that channel holding
2 > 1 pending messages before the woken receiver ever runs. -/
theorem c1_counterexample :
    capacityInvariant busFullWithReceiver = true ∧
    coro_bus_broadcast_attempt 9 busFullWithReceiver Err.none 42 =
      .ret 0 [] ⟨busOverCap, Err.none, [3]⟩ ∧
    capacityInvariant busOverCap = false :=
  ⟨rfl, rfl, rfl⟩

/-- Claim C1 (amended): `send`, `try_send`, `try_broadcast`, `send_many` and
`try_send_many` (the latter two on machine-sized capacities) preserve
"pending ≤ capacity" on every channel at every return or suspension point;
the blocking `broadcast` preserves only "pending ≤ capacity + 1, and
pending ≤ capacity on every channel with no parked receiver": it appends to
a full channel whenever a receiver is parked on it, observably exceeding
the capacity by one message. -/
theorem c1_capacity_preservation :
    (∀ self bus errno channel v b', capacityInvariant bus = true →
      (coro_bus_send_attempt self bus errno channel v).busOf = some b' →
      capacityInvariant b' = true) ∧
    (∀ self bus errno channel chanId v b', capacityInvariant bus = true →
      (coro_bus_send_resume self bus errno channel chanId v).busOf = some b' →
      capacityInvariant b' = true) ∧
    (∀ bus errno channel v b', capacityInvariant bus = true →
      (coro_bus_try_send bus errno channel v).busOf = some b' →
      capacityInvariant b' = true) ∧
    (∀ bus errno v b', capacityInvariant bus = true →
      (coro_bus_try_broadcast bus errno v).busOf = some b' →
      capacityInvariant b' = true) ∧
    (∀ self bus errno channel vs b', capacityInvariant bus = true →
      sizesMachine bus = true →
      (coro_bus_send_v_attempt self bus errno channel vs).busOf = some b' →
      capacityInvariant b' = true) ∧
    (∀ self bus errno channel chanId vs b', capacityInvariant bus = true →
      sizesMachine bus = true →
      (coro_bus_send_v_resume self bus errno channel chanId vs).busOf = some b' →
      capacityInvariant b' = true) ∧
    (∀ bus errno channel vs b', capacityInvariant bus = true →
      sizesMachine bus = true →
      (coro_bus_try_send_v bus errno channel vs).busOf = some b' →
      capacityInvariant b' = true) ∧
    (∀ self bus errno v b', capacityInvariant bus = true →
      (coro_bus_broadcast_attempt self bus errno v).busOf = some b' →
      broadcastCapSlack b' = true) :=
  ⟨fun _ _ _ _ _ _ hinv hb => send_attempt_preserves_cap hinv hb,
   fun _ _ _ _ _ _ _ hinv hb => send_resume_preserves_cap hinv hb,
   fun _ _ _ _ _ hinv hb => try_send_preserves_cap hinv hb,
   fun _ _ _ _ hinv hb => try_broadcast_preserves_cap hinv hb,
   fun _ _ _ _ _ _ hinv hsz hb => send_v_attempt_preserves_cap hinv hsz hb,
   fun _ _ _ _ _ _ _ hinv hsz hb => send_v_resume_preserves_cap hinv hsz hb,
   fun _ _ _ _ _ hinv hsz hb => try_send_v_preserves_cap hinv hsz hb,
   fun _ _ _ _ _ hinv hb => broadcast_attempt_preserves_slack hinv hb⟩

/-- Witness for C1: a successful `coro_bus_send` into the idle capacity-2
channel keeps the invariant, and the over-capacity broadcast state still
satisfies the slack bound. -/
theorem c1_capacity_preservation_witness :
    capacityInvariant ⟨[some ⟨0, 2, [9], [], []⟩], 1⟩ = true ∧
    broadcastCapSlack busOverCap = true :=
  ⟨c1_capacity_preservation.1 0 busOneChan Err.none 0 9
     ⟨[some ⟨0, 2, [9], [], []⟩], 1⟩ rfl rfl,
   c1_capacity_preservation.2.2.2.2.2.2.2 9 busFullWithReceiver Err.none 42
     busOverCap rfl rfl⟩

/-! ## Claim C4 -/

theorem set_of_get? {α} : ∀ {l : List α} {n : Nat} {a : α},
    l.get? n = some a → l.set n a = l
  | [], _, _, h => by simp at h
  | x :: xs, 0, a, h => by
      simp only [List.get?_cons_zero, Option.some.injEq] at h
      simp [h]
  | x :: xs, n + 1, a, h => by
      simp only [List.get?_cons_succ] at h
      simp [set_of_get? h]

theorem isEmpty_false_of_get? {α} {l : List α} {n : Nat} {a : α}
    (h : l.get? n = some a) : l.isEmpty = false := by
  cases l with
  | nil => simp at h
  | cons x xs => rfl

theorem send_attempt_success {self : TaskId} {bus : CoroBus} {errno : Err}
    {slot : Nat} {ch : Chan} {v : Val}
    (hch : bus.channels.get? slot = some (some ch))
    (hroom : ch.data.length < ch.size_limit) :
    coro_bus_send_attempt self bus errno (slot : Int) v =
      .ret 0 [] ⟨setChanAt bus slot (some { ch with data := ch.data ++ [v] }), errno,
        wakeup_queue_wakeup_first ch.recv_queue ++
          wakeup_queue_wakeup_first ch.send_queue⟩ := by
  have hchAt : chanAt bus (slot : Int) = some (some ch) := by
    rw [chanAt_coe]; exact hch
  have hinv := invalidHandle_false hchAt
  unfold coro_bus_send_attempt
  rw [hinv]
  simp only [Bool.false_eq_true, if_false, hchAt]
  rw [if_pos hroom]
  rfl

theorem recv_attempt_success {self : TaskId} {bus : CoroBus} {errno : Err}
    {slot : Nat} {ch : Chan} {a : Val} {as : List Val}
    (hch : bus.channels.get? slot = some (some ch))
    (hdata : ch.data = a :: as) :
    coro_bus_recv_attempt self bus errno (slot : Int) =
      .ret 0 [a] ⟨setChanAt bus slot (some { ch with data := as }), errno,
        wakeup_queue_wakeup_first ch.send_queue⟩ := by
  have hchAt : chanAt bus (slot : Int) = some (some ch) := by
    rw [chanAt_coe]; exact hch
  have hne := isEmpty_false_of_get? hch
  unfold coro_bus_recv_attempt
  rw [hne]
  simp only [Bool.false_eq_true, if_false, hchAt]
  rw [hdata]
  rw [if_neg (by simp)]
  rfl

theorem sendAll_spec (self : TaskId) (slot : Nat) :
    ∀ (vs : List Val) (bus : CoroBus) (errno : Err) (ch : Chan),
    bus.channels.get? slot = some (some ch) →
    ch.data.length + vs.length ≤ ch.size_limit →
    sendAll self (slot : Int) bus errno vs =
      some (setChanAt bus slot (some { ch with data := ch.data ++ vs }), errno)
  | [], bus, errno, ch, hch, _ => by
      simp only [sendAll, List.append_nil]
      rw [show ({ ch with data := ch.data } : Chan) = ch from rfl]
      unfold setChanAt
      rw [set_of_get? hch]
  | v :: vs, bus, errno, ch, hch, hlen => by
      have hroom : ch.data.length < ch.size_limit := by
        simp only [List.length_cons] at hlen; omega
      have hstep := @send_attempt_success self bus errno slot ch v hch hroom
      simp only [sendAll]
      rw [hstep]
      dsimp only
      rw [if_pos rfl]
      have hch1 : (setChanAt bus slot
            (some { ch with data := ch.data ++ [v] })).channels.get? slot =
          some (some { ch with data := ch.data ++ [v] }) := by
        unfold setChanAt
        exact get?_set_self _ (lt_length_of_get? hch)
      rw [sendAll_spec self slot vs _ errno _ hch1
        (by simp only [List.length_append, List.length_cons, List.length_nil]
            simp only [List.length_cons] at hlen
            omega)]
      unfold setChanAt
      rw [List.set_set]
      simp [List.append_assoc]

theorem recvAll_spec (self : TaskId) (slot : Nat) :
    ∀ (n : Nat) (bus : CoroBus) (errno : Err) (ch : Chan),
    bus.channels.get? slot = some (some ch) →
    n ≤ ch.data.length →
    recvAll self (slot : Int) bus errno n =
      some (ch.data.take n,
        setChanAt bus slot (some { ch with data := ch.data.drop n }), errno)
  | 0, bus, errno, ch, hch, _ => by
      simp only [recvAll, List.take_zero, List.drop_zero]
      rw [show ({ ch with data := ch.data } : Chan) = ch from rfl]
      unfold setChanAt
      rw [set_of_get? hch]
  | n + 1, bus, errno, ch, hch, hn => by
      cases hd : ch.data with
      | nil => rw [hd] at hn; simp at hn
      | cons a as =>
        have hstep := @recv_attempt_success self bus errno slot ch a as hch hd
        simp only [recvAll]
        rw [hstep]
        dsimp only
        rw [if_pos rfl]
        have hch1 : (setChanAt bus slot
              (some { ch with data := as })).channels.get? slot =
            some (some { ch with data := as }) := by
          unfold setChanAt
          exact get?_set_self _ (lt_length_of_get? hch)
        rw [recvAll_spec self slot n _ errno _ hch1
          (by rw [hd] at hn; simpa using Nat.succ_le_succ_iff.mp hn)]
        unfold setChanAt
        rw [List.set_set]
        simp

/-- Claim C4: on an idle channel (empty queue, no parked tasks) of capacity
at least `N`, sending `v1 .. vN` one by one and then receiving `N` values —
all calls completing without suspension — yields exactly `v1 .. vN` in the
order they were sent. -/
theorem c4_fifo_roundtrip (self : TaskId) (bus : CoroBus) (errno : Err)
    (slot : Nat) (ch : Chan) (vs : List Val)
    (hch : bus.channels.get? slot = some (some ch))
    (hidle : ch.data = [])
    (_hsq : ch.send_queue = []) (_hrq : ch.recv_queue = [])
    (hcap : vs.length ≤ ch.size_limit) :
    roundTrip self (slot : Int) bus errno vs = some vs := by
  unfold roundTrip
  rw [sendAll_spec self slot vs bus errno ch hch (by rw [hidle]; simpa using hcap)]
  dsimp only
  have hch1 : (setChanAt bus slot
        (some { ch with data := ch.data ++ vs })).channels.get? slot =
      some (some { ch with data := ch.data ++ vs }) := by
    unfold setChanAt
    exact get?_set_self _ (lt_length_of_get? hch)
  rw [recvAll_spec self slot vs.length _ errno _ hch1 (by rw [hidle]; simp)]
  rw [hidle]
  simp

/-- Witness for C4: sending `[10, 20]` through the idle capacity-2 channel
and receiving twice returns `[10, 20]`. -/
theorem c4_fifo_roundtrip_witness :
    roundTrip 0 ((0 : Nat) : Int) busOneChan Err.none [10, 20] = some [10, 20] :=
  c4_fifo_roundtrip 0 busOneChan Err.none 0 ⟨0, 2, [], [], []⟩ [10, 20]
    rfl rfl rfl rfl (by decide)

end Corobus
